import Mathlib

/-!
Verification of the solar-calculations engine (angle substrate, julian-date
substrate, the single-pass "wiki" sunrise-equation backend, and the two-pass
"noaa" backend) against its natural-language specification.

The C++ double-precision arithmetic is embedded over the real numbers.  The
one place where IEEE semantics is observable through the public interface is
acos applied outside [-1, 1]: the C library returns NaN there, the backends
propagate it and translate it to an absent optional.  That channel is
modelled with Option: acosOpt returns none exactly on a domain error, and
the propagation of NaN through subsequent arithmetic corresponds to Option
bind.  Calendar days are integers (days since the Unix epoch, as in
date::sys_days), timestamps are integer seconds (date::sys_seconds), and
fractional-day time points are reals.
-/

open Real

noncomputable section

/-- C truncation toward zero, the rounding used by fmod. -/
def rtrunc (x : ℝ) : ℤ := if 0 ≤ x then ⌊x⌋ else ⌈x⌉

/-- C fmod(x, y): remainder with the sign of the dividend. -/
def fmod (x y : ℝ) : ℝ := x - y * (rtrunc (x / y) : ℝ)

/-- C copysign(x, y): the magnitude of x with the sign of y (a +0 second
argument counts as positive; -0 has no counterpart in ℝ). -/
def copysign (x y : ℝ) : ℝ := if y < 0 then -|x| else |x|

/-- C acos: on [-1, 1] it is the principal arc cosine; outside, IEEE returns
NaN, which the backends detect with isnan.  none models that NaN. -/
def acosOpt (x : ℝ) : Option ℝ := if -1 ≤ x ∧ x ≤ 1 then some (Real.arccos x) else none

namespace Angle

/-- Angle::from_deg (angle.h): degrees to the internal radian value. -/
def from_deg (d : ℝ) : ℝ := d * (π / 180)

/-- Angle::deg() (angle.h). -/
def deg (a : ℝ) : ℝ := a * (180 / π)

/-- explicit operator julian_days (angle.h): 360 degrees = 2*pi rad = 1 day. -/
def to_julian_days (a : ℝ) : ℝ := a / (2 * π)

/-- Angle(julian_days d), the converse conversion used by
sun::noaa::get_sun_elevation: 1 day = 2*pi rad, the inverse of the explicit
operator julian_days of angle.h. -/
def of_julian_days (d : ℝ) : ℝ := d * (2 * π)

end Angle

namespace julian_date

/-- jdiff() (julian_date.h): days from the julian epoch (-4713-11-24 12:00)
to the Unix epoch (1970-01-01 00:00), 2440587.5 days. -/
def jdiff : ℝ := 2440587.5

/-- julian_to_sys on a fractional-day julian time point, giving fractional
days since the Unix epoch. -/
def julian_to_sys (jd : ℝ) : ℝ := jd - jdiff

/-- sys_to_julian on a time point given in fractional days since the Unix
epoch. -/
def sys_to_julian (d : ℝ) : ℝ := d + jdiff

end julian_date

/-- start_of_jul_century / start_of_julian_century: julian day of the J2000
epoch (2000-01-01 12:00 UTC). -/
def start_of_jul_century : ℝ := 2451545.0

/-- floor, chrono floor to whole seconds of a time point given in
fractional days since the Unix epoch. -/
def floor_seconds (t : ℝ) : ℤ := ⌊t * 86400⌋

/-- The implicit chrono conversion julian_days -> julian_centuries used at
every call of an ephemeris function: one julian century is 36525 days. -/
def to_centuries (d : ℝ) : ℝ := d / 36525

namespace sun

def astroTwilightElev : ℝ := -18.0

def nautTwilightElev : ℝ := -12.0

def civilTwilightElev : ℝ := -6.0

def daytimeElev : ℝ := -0.833

namespace SunTime

def Noon : ℝ := Angle.from_deg 0.0

def Midnight : ℝ := Angle.from_deg 180.0

def AstroDawn : ℝ := Angle.from_deg (-90.0 + sun.astroTwilightElev)

def NautDawn : ℝ := Angle.from_deg (-90.0 + sun.nautTwilightElev)

def CivilDawn : ℝ := Angle.from_deg (-90.0 + sun.civilTwilightElev)

def Sunrise : ℝ := Angle.from_deg (-90.0 + sun.daytimeElev)

def Sunset : ℝ := Angle.from_deg (90.0 - sun.daytimeElev)

def CivilDusk : ℝ := Angle.from_deg (90.0 - sun.civilTwilightElev)

def NautDusk : ℝ := Angle.from_deg (90.0 - sun.nautTwilightElev)

def AstroDusk : ℝ := Angle.from_deg (90.0 - sun.astroTwilightElev)

end SunTime

/-- sun_times (sun.h): noon and midnight are plain timestamps, every other
event is optional. -/
structure sun_times where
  noon : ℤ
  midnight : ℤ
  astro_dawn : Option ℤ
  naut_dawn : Option ℤ
  civil_dawn : Option ℤ
  sunrise : Option ℤ
  sunset : Option ℤ
  civil_dusk : Option ℤ
  naut_dusk : Option ℤ
  astro_dusk : Option ℤ

namespace wiki

/-- to_julian_day (wiki_sun.cpp, also the identical file-static copy in
sun.cpp): whole days since J2000, rounded up after adding 0.0008. -/
def to_julian_day (date : ℤ) : ℤ :=
  ⌈(date : ℝ) + julian_date.jdiff - start_of_jul_century + 0.0008⌉

/-- mean_solar_time (wiki_sun.cpp). -/
def mean_solar_time (days : ℤ) (longitude : ℝ) : ℝ :=
  (days : ℝ) - Angle.to_julian_days longitude

/-- solar_mean_anomaly (wiki_sun.cpp). -/
def solar_mean_anomaly (mst : ℝ) : ℝ :=
  Angle.from_deg (fmod (357.5291 + 0.98560028 * mst) 360)

/-- equation_of_the_center (wiki_sun.cpp). -/
def equation_of_the_center (mean_anomaly : ℝ) : ℝ :=
  Angle.from_deg (1.9148 * Real.sin mean_anomaly + 0.0200 * Real.sin (2 * mean_anomaly) +
    0.0003 * Real.sin (3 * mean_anomaly))

/-- ecliptic_longitude (wiki_sun.cpp). -/
def ecliptic_longitude (mean_anomaly : ℝ) : ℝ :=
  Angle.from_deg (fmod (Angle.deg mean_anomaly + Angle.deg (equation_of_the_center mean_anomaly) +
    180 + 102.9372) 360)

/-- solar_transit (wiki_sun.cpp); the result is a julian-day time point. -/
def solar_transit (mst sma el : ℝ) : ℝ :=
  start_of_jul_century + mst + (0.0053 * Real.sin sma - 0.0069 * Real.sin (2 * el))

/-- declination_of_the_sun (wiki_sun.cpp), with the fixed 23.44 degree
axial tilt. -/
def declination_of_the_sun (el : ℝ) : ℝ :=
  Real.arcsin (Real.sin el * Real.sin (Angle.from_deg 23.44))

/-- hour_angle (wiki_sun.cpp): acos of the elevation quotient, its sign
copied from the target angle; none models the NaN of an acos domain error. -/
def hour_angle (latitude declination ta : ℝ) : Option ℝ :=
  (acosOpt ((Real.cos ta - Real.sin latitude * Real.sin declination) /
      (Real.cos latitude * Real.cos declination))).map fun omega => copysign omega ta

/-- sun::wiki::get_sun_time (wiki_sun.cpp). -/
def get_sun_time (latitude longitude : ℝ) (date : ℤ) (elevation : ℝ) : Option ℤ :=
  let j_day := to_julian_day date
  let mst := mean_solar_time j_day longitude
  let sma := solar_mean_anomaly mst
  let el := ecliptic_longitude sma
  let declination := declination_of_the_sun el
  let true_noon := solar_transit mst sma el
  let result : Option ℝ :=
    if elevation = SunTime.Midnight then some (true_noon + 0.5)
    else if elevation = SunTime.Noon then some true_noon
    else (hour_angle latitude declination elevation).map fun ha => true_noon + Angle.deg ha / 360
  result.map fun r => floor_seconds (julian_date.julian_to_sys r)

/-- The solar transit ("true_noon" local) of sun::wiki::get_sun_time, as a
standalone composition for use in theorem statements. -/
def true_noon (longitude : ℝ) (date : ℤ) : ℝ :=
  solar_transit (mean_solar_time (to_julian_day date) longitude)
    (solar_mean_anomaly (mean_solar_time (to_julian_day date) longitude))
    (ecliptic_longitude (solar_mean_anomaly (mean_solar_time (to_julian_day date) longitude)))

/-- The declination local of sun::wiki::get_sun_time, as a standalone
composition for use in theorem statements. -/
def declination (longitude : ℝ) (date : ℤ) : ℝ :=
  declination_of_the_sun
    (ecliptic_longitude (solar_mean_anomaly (mean_solar_time (to_julian_day date) longitude)))

/-- The acos argument of the wiki backend's hour-angle computation for a
given query, for use in theorem statements. -/
def acos_arg (latitude longitude : ℝ) (date : ℤ) (elevation : ℝ) : ℝ :=
  (Real.cos elevation - Real.sin latitude * Real.sin (declination longitude date)) /
    (Real.cos latitude * Real.cos (declination longitude date))

/-- sun::wiki::get_sun_times (wiki_sun.cpp); the two .value() calls throw on
an empty optional, modelled by the outer Option being none. -/
def get_sun_times (latitude longitude : ℝ) (date : ℤ) : Option sun_times :=
  (get_sun_time latitude longitude date SunTime.Noon).bind fun n =>
  (get_sun_time latitude longitude date SunTime.Midnight).map fun m =>
  { noon := n
    midnight := m
    astro_dawn := get_sun_time latitude longitude date SunTime.AstroDawn
    naut_dawn := get_sun_time latitude longitude date SunTime.NautDawn
    civil_dawn := get_sun_time latitude longitude date SunTime.CivilDawn
    sunrise := get_sun_time latitude longitude date SunTime.Sunrise
    sunset := get_sun_time latitude longitude date SunTime.Sunset
    civil_dusk := get_sun_time latitude longitude date SunTime.CivilDusk
    naut_dusk := get_sun_time latitude longitude date SunTime.NautDusk
    astro_dusk := get_sun_time latitude longitude date SunTime.AstroDusk }

end wiki

/-- sun::time_angle (sun.cpp).  Modelled from the spec: the SunTime
enumeration declaration that sun.cpp compiles against is not among the
sources; per spec section 3 it is the closed list Noon, Midnight, AstroDawn,
NautDawn, CivilDawn, Sunrise, Sunset, CivilDusk, NautDusk, AstroDusk,
encoded 0..9 here in that order; any other integer models an out-of-range
enumeration argument.  The switch returns an angle for the eight elevation
events and throws std::invalid_argument otherwise (none). -/
def time_angle (time_type : ℤ) : Option ℝ :=
  if time_type = 2 then some (Angle.from_deg (-90.0 + astroTwilightElev))
  else if time_type = 3 then some (Angle.from_deg (-90.0 + nautTwilightElev))
  else if time_type = 4 then some (Angle.from_deg (-90.0 + civilTwilightElev))
  else if time_type = 5 then some (Angle.from_deg (-90.0 + daytimeElev))
  else if time_type = 6 then some (Angle.from_deg (90.0 - daytimeElev))
  else if time_type = 7 then some (Angle.from_deg (90.0 - civilTwilightElev))
  else if time_type = 8 then some (Angle.from_deg (90.0 - nautTwilightElev))
  else if time_type = 9 then some (Angle.from_deg (90.0 - astroTwilightElev))
  else none

/-- The file-static get_sun_time of sun.cpp (the enum-based snapshot of the
wiki backend; its ephemeris statics are textually identical to wiki_sun.cpp
and shared above).  The outer Option is the exception channel: none means
time_angle threw. -/
def get_sun_time (latitude longitude : ℝ) (date : ℤ) (type : ℤ) : Option (Option ℤ) :=
  let j_day := wiki.to_julian_day date
  let mst := wiki.mean_solar_time j_day longitude
  let sma := wiki.solar_mean_anomaly mst
  let el := wiki.ecliptic_longitude sma
  let declination := wiki.declination_of_the_sun el
  let true_noon := wiki.solar_transit mst sma el
  if type = 1 then some (some (floor_seconds (julian_date.julian_to_sys (true_noon + 0.5))))
  else if type = 0 then some (some (floor_seconds (julian_date.julian_to_sys true_noon)))
  else
    (time_angle type).map fun ta =>
      (wiki.hour_angle latitude declination ta).map fun ha =>
        floor_seconds (julian_date.julian_to_sys (true_noon + Angle.deg ha / 360))

/-- sun::get_sun_times (sun.cpp): aggregates all ten kinds; none models an
escaped exception (from time_angle or from .value() on an empty optional). -/
def get_sun_times (latitude longitude : ℝ) (date : ℤ) : Option sun_times :=
  (get_sun_time latitude longitude date 0).bind fun vn =>
  vn.bind fun n =>
  (get_sun_time latitude longitude date 1).bind fun vm =>
  vm.bind fun m =>
  (get_sun_time latitude longitude date 2).bind fun ad =>
  (get_sun_time latitude longitude date 3).bind fun nd =>
  (get_sun_time latitude longitude date 4).bind fun cd =>
  (get_sun_time latitude longitude date 5).bind fun sr =>
  (get_sun_time latitude longitude date 6).bind fun ss =>
  (get_sun_time latitude longitude date 7).bind fun cdk =>
  (get_sun_time latitude longitude date 8).bind fun ndk =>
  (get_sun_time latitude longitude date 9).map fun adk =>
  { noon := n
    midnight := m
    astro_dawn := ad
    naut_dawn := nd
    civil_dawn := cd
    sunrise := sr
    sunset := ss
    civil_dusk := cdk
    naut_dusk := ndk
    astro_dusk := adk }

namespace noaa

/-- sun_geometric_mean_longitude (noaa_sun.cpp); t counts julian centuries
since J2000. -/
def sun_geometric_mean_longitude (t : ℝ) : ℝ :=
  Angle.from_deg (fmod (280.46646 + t * (36000.76983 + t * 0.0003032)) 360)

/-- sun_geometric_mean_anomaly (noaa_sun.cpp). -/
def sun_geometric_mean_anomaly (t : ℝ) : ℝ :=
  Angle.from_deg (357.52911 + t * (35999.05029 - 0.0001537 * t))

/-- earth_orbit_eccentricity (noaa_sun.cpp). -/
def earth_orbit_eccentricity (t : ℝ) : ℝ :=
  0.016708634 - t * (0.000042037 + 0.0000001267 * t)

/-- sun_equation_of_center (noaa_sun.cpp). -/
def sun_equation_of_center (t : ℝ) : ℝ :=
  let an := sun_geometric_mean_anomaly t
  Angle.from_deg (Real.sin an * (1.914602 - t * (0.004817 + 0.000014 * t)) +
    Real.sin (2 * an) * (0.019993 - 0.000101 * t) + Real.sin (3 * an) * 0.000289)

/-- sun_apparent_longitude (noaa_sun.cpp). -/
def sun_apparent_longitude (t : ℝ) : ℝ :=
  let sun_true_longitude := sun_geometric_mean_longitude t + sun_equation_of_center t
  let a := Angle.from_deg (125.04 - 1934.136 * t)
  sun_true_longitude - Angle.from_deg (0.00569 + 0.00478 * Real.sin a)

/-- mean_ecliptic_obliquity (noaa_sun.cpp). -/
def mean_ecliptic_obliquity (t : ℝ) : ℝ :=
  Angle.from_deg (23 + (26 + (21.448 - t * (46.815 + t * (0.00059 - t * 0.001813))) / 60) / 60)

/-- obliquity_correction (noaa_sun.cpp). -/
def obliquity_correction (t : ℝ) : ℝ :=
  let a := Angle.from_deg (125.04 - 1934.136 * t)
  mean_ecliptic_obliquity t + Angle.from_deg (0.00256 * Real.cos a)

/-- sun_declination (noaa_sun.cpp). -/
def sun_declination (t : ℝ) : ℝ :=
  Real.arcsin (Real.sin (obliquity_correction t) * Real.sin (sun_apparent_longitude t))

/-- equation_of_time (noaa_sun.cpp), in radians. -/
def equation_of_time (t : ℝ) : ℝ :=
  let oc := obliquity_correction t
  let I2 := sun_geometric_mean_longitude t
  let J2 := sun_geometric_mean_anomaly t
  let K2 := earth_orbit_eccentricity t
  let y := Real.tan (oc / 2) * Real.tan (oc / 2)
  y * Real.sin (2 * I2) - 2 * K2 * Real.sin J2 + 4 * K2 * y * Real.sin J2 * Real.cos (2 * I2) -
    0.5 * y * y * Real.sin (4 * I2) - 1.25 * K2 * K2 * Real.sin (2 * J2)

/-- hour_angle (noaa_sun.cpp): none models the NaN of an acos domain
error; copysign gives dawn events (negative target angle) a negative hour
angle and dusk events a positive one. -/
def hour_angle (t : ℝ) (latitude elevation : ℝ) : Option ℝ :=
  let decli := sun_declination t
  (acosOpt (Real.cos elevation / (Real.cos latitude * Real.cos decli) -
      Real.tan latitude * Real.tan decli)).map fun omega => copysign omega elevation

/-- elevation_from_hour_angle (noaa_sun.cpp): total, acos of an expression
that always lies in [-1, 1]. -/
def elevation_from_hour_angle (t : ℝ) (latitude ha : ℝ) : ℝ :=
  let decli := sun_declination t
  Real.arccos (Real.cos ha * Real.cos latitude * Real.cos decli +
    Real.sin latitude * Real.sin decli)

/-- The static Noon constant of noaa_sun.cpp, 180 degrees. -/
def Noon : ℝ := Angle.from_deg 180

/-- time_of_solar_noon (noaa_sun.cpp); day is the julian-day time point of
the requested midnight relative to J2000, the result is the transit offset
from that midnight in fractional days (two-pass equation-of-time
refinement). -/
def time_of_solar_noon (day : ℝ) (longitude : ℝ) : ℝ :=
  let tp1 := day + Angle.to_julian_days (Noon - longitude)
  let e1 := equation_of_time (to_centuries tp1)
  let tp2 := day + Angle.to_julian_days (Noon - longitude - e1)
  Angle.to_julian_days (Noon - longitude - equation_of_time (to_centuries tp2))

/-- time_of_solar_elevation (noaa_sun.cpp): two-pass hour-angle solve from
the converged transit; noon is the transit time point relative to J2000.
A NaN in either pass propagates to the result, modelled by Option bind. -/
def time_of_solar_elevation (noon : ℝ) (latitude longitude elevation : ℝ) : Option ℝ :=
  (hour_angle (to_centuries noon) latitude elevation).bind fun a1 =>
    let tp := noon + Angle.to_julian_days a1
    (hour_angle (to_centuries tp) latitude elevation).map fun a2 =>
      Angle.to_julian_days (Noon - longitude - equation_of_time (to_centuries tp) + a2)

/-- The j_day local of sun::noaa::get_sun_time: the requested midnight UTC
as a julian-day time point relative to J2000. -/
def j_day (date : ℤ) : ℝ := (date : ℝ) + julian_date.jdiff - start_of_jul_century

/-- The a_noon local of sun::noaa::get_sun_time, as a standalone composition
for use in theorem statements. -/
def a_noon (longitude : ℝ) (date : ℤ) : ℝ := time_of_solar_noon (j_day date) longitude

/-- sun::noaa::get_sun_time (noaa_sun.cpp). -/
def get_sun_time (latitude longitude : ℝ) (date : ℤ) (elevation : ℝ) : Option ℤ :=
  let jd := j_day date
  let an := time_of_solar_noon jd longitude
  if elevation = SunTime.Noon then some (floor_seconds ((date : ℝ) + an))
  else if elevation = SunTime.Midnight then some (floor_seconds ((date : ℝ) + an + 0.5))
  else
    (time_of_solar_elevation (jd + an) latitude longitude elevation).map fun angle =>
      floor_seconds ((date : ℝ) + angle)

/-- The acos argument of the first hour-angle pass of the noaa backend for a
given query, for use in theorem statements. -/
def acos_arg1 (latitude longitude : ℝ) (date : ℤ) (elevation : ℝ) : ℝ :=
  let decli := sun_declination (to_centuries (j_day date + a_noon longitude date))
  Real.cos elevation / (Real.cos latitude * Real.cos decli) -
    Real.tan latitude * Real.tan decli

/-- The acos argument of the second hour-angle pass of the noaa backend
(evaluated at the candidate time formed from the first pass), for use in
theorem statements. -/
def acos_arg2 (latitude longitude : ℝ) (date : ℤ) (elevation : ℝ) : ℝ :=
  let tp := j_day date + a_noon longitude date +
    Angle.to_julian_days (copysign (Real.arccos (acos_arg1 latitude longitude date elevation))
      elevation)
  let decli := sun_declination (to_centuries tp)
  Real.cos elevation / (Real.cos latitude * Real.cos decli) -
    Real.tan latitude * Real.tan decli

/-- sun::noaa::get_sun_times (noaa_sun.cpp); the two .value() calls throw on
an empty optional, modelled by the outer Option being none. -/
def get_sun_times (latitude longitude : ℝ) (date : ℤ) : Option sun_times :=
  (get_sun_time latitude longitude date SunTime.Noon).bind fun n =>
  (get_sun_time latitude longitude date SunTime.Midnight).map fun m =>
  { noon := n
    midnight := m
    astro_dawn := get_sun_time latitude longitude date SunTime.AstroDawn
    naut_dawn := get_sun_time latitude longitude date SunTime.NautDawn
    civil_dawn := get_sun_time latitude longitude date SunTime.CivilDawn
    sunrise := get_sun_time latitude longitude date SunTime.Sunrise
    sunset := get_sun_time latitude longitude date SunTime.Sunset
    civil_dusk := get_sun_time latitude longitude date SunTime.CivilDusk
    naut_dusk := get_sun_time latitude longitude date SunTime.NautDusk
    astro_dusk := get_sun_time latitude longitude date SunTime.AstroDusk }

/-- sun::noaa::get_sun_times_opt (noaa_sun.cpp): computes the per-date
transit once and shares it across all events. -/
def get_sun_times_opt (latitude longitude : ℝ) (date : ℤ) : sun_times :=
  let jd := j_day date
  let an := time_of_solar_noon jd longitude
  let jn := jd + an
  let get_time : ℝ → Option ℤ := fun elevation =>
    (time_of_solar_elevation jn latitude longitude elevation).map fun angle =>
      floor_seconds ((date : ℝ) + angle)
  { noon := floor_seconds ((date : ℝ) + an)
    midnight := floor_seconds ((date : ℝ) + an + 0.5)
    astro_dawn := get_time SunTime.AstroDawn
    naut_dawn := get_time SunTime.NautDawn
    civil_dawn := get_time SunTime.CivilDawn
    sunrise := get_time SunTime.Sunrise
    sunset := get_time SunTime.Sunset
    civil_dusk := get_time SunTime.CivilDusk
    naut_dusk := get_time SunTime.NautDusk
    astro_dusk := get_time SunTime.AstroDusk }

/-- The j_tp local of sun::noaa::get_sun_elevation: the instant (integer
seconds since the Unix epoch) as a julian time point relative to J2000. -/
def j_tp (s : ℤ) : ℝ := (s : ℝ) / 86400 + julian_date.jdiff - start_of_jul_century

/-- The minutes_from_midnight local of sun::noaa::get_sun_elevation: the
fraction of the UTC day elapsed at the instant, as an angle (1 day = 2*pi). -/
def minutes_from_midnight (s : ℤ) : ℝ :=
  Angle.of_julian_days ((s : ℝ) / 86400 - (⌊(s : ℝ) / 86400⌋ : ℝ))

/-- The hour angle formed by sun::noaa::get_sun_elevation at an instant, as
a standalone composition for use in theorem statements. -/
def elevation_hour_angle (longitude : ℝ) (s : ℤ) : ℝ :=
  longitude + equation_of_time (to_centuries (j_tp s)) + minutes_from_midnight s - Noon

/-- sun::noaa::get_sun_elevation (noaa_sun.cpp): total inverse function. -/
def get_sun_elevation (latitude longitude : ℝ) (s : ℤ) : ℝ :=
  elevation_from_hour_angle (to_centuries (j_tp s)) latitude
    (elevation_hour_angle longitude s)

/-- Modelled from the spec: the inverse function as the specification words
it, via the spherical-triangle identity
elev = arcsin(sin(lat)*sin(decl) + cos(lat)*cos(decl)*cos(hourAngle)) with
declination and equation of time computed at the instant's fractional day
of epoch.  This is the comparison definition for the refinement claim about
sun::noaa::get_sun_elevation. -/
def spec_sun_elevation (latitude longitude : ℝ) (s : ℤ) : ℝ :=
  Real.arcsin (Real.sin latitude * Real.sin (sun_declination (to_centuries (j_tp s))) +
    Real.cos latitude * Real.cos (sun_declination (to_centuries (j_tp s))) *
      Real.cos (elevation_hour_angle longitude s))

end noaa

end sun

namespace sun

lemma from_deg_inj {a b : ℝ} (h : Angle.from_deg a = Angle.from_deg b) : a = b := by
  have hpi : (π / 180 : ℝ) ≠ 0 := div_ne_zero Real.pi_ne_zero (by norm_num)
  exact mul_right_cancel₀ hpi h

lemma from_deg_ne {a b : ℝ} (h : a ≠ b) : Angle.from_deg a ≠ Angle.from_deg b :=
  fun hh => h (from_deg_inj hh)

lemma Noon_ne_Midnight : SunTime.Noon ≠ SunTime.Midnight := by
  unfold SunTime.Noon SunTime.Midnight
  exact from_deg_ne (by norm_num)

lemma Midnight_ne_Noon : SunTime.Midnight ≠ SunTime.Noon := by
  unfold SunTime.Noon SunTime.Midnight
  exact from_deg_ne (by norm_num)

lemma AstroDawn_ne_Noon : SunTime.AstroDawn ≠ SunTime.Noon := by
  unfold SunTime.AstroDawn SunTime.Noon astroTwilightElev
  exact from_deg_ne (by norm_num)

lemma AstroDawn_ne_Midnight : SunTime.AstroDawn ≠ SunTime.Midnight := by
  unfold SunTime.AstroDawn SunTime.Midnight astroTwilightElev
  exact from_deg_ne (by norm_num)

lemma NautDawn_ne_Noon : SunTime.NautDawn ≠ SunTime.Noon := by
  unfold SunTime.NautDawn SunTime.Noon nautTwilightElev
  exact from_deg_ne (by norm_num)

lemma NautDawn_ne_Midnight : SunTime.NautDawn ≠ SunTime.Midnight := by
  unfold SunTime.NautDawn SunTime.Midnight nautTwilightElev
  exact from_deg_ne (by norm_num)

lemma CivilDawn_ne_Noon : SunTime.CivilDawn ≠ SunTime.Noon := by
  unfold SunTime.CivilDawn SunTime.Noon civilTwilightElev
  exact from_deg_ne (by norm_num)

lemma CivilDawn_ne_Midnight : SunTime.CivilDawn ≠ SunTime.Midnight := by
  unfold SunTime.CivilDawn SunTime.Midnight civilTwilightElev
  exact from_deg_ne (by norm_num)

lemma Sunrise_ne_Noon : SunTime.Sunrise ≠ SunTime.Noon := by
  unfold SunTime.Sunrise SunTime.Noon daytimeElev
  exact from_deg_ne (by norm_num)

lemma Sunrise_ne_Midnight : SunTime.Sunrise ≠ SunTime.Midnight := by
  unfold SunTime.Sunrise SunTime.Midnight daytimeElev
  exact from_deg_ne (by norm_num)

lemma Sunset_ne_Noon : SunTime.Sunset ≠ SunTime.Noon := by
  unfold SunTime.Sunset SunTime.Noon daytimeElev
  exact from_deg_ne (by norm_num)

lemma Sunset_ne_Midnight : SunTime.Sunset ≠ SunTime.Midnight := by
  unfold SunTime.Sunset SunTime.Midnight daytimeElev
  exact from_deg_ne (by norm_num)

lemma CivilDusk_ne_Noon : SunTime.CivilDusk ≠ SunTime.Noon := by
  unfold SunTime.CivilDusk SunTime.Noon civilTwilightElev
  exact from_deg_ne (by norm_num)

lemma CivilDusk_ne_Midnight : SunTime.CivilDusk ≠ SunTime.Midnight := by
  unfold SunTime.CivilDusk SunTime.Midnight civilTwilightElev
  exact from_deg_ne (by norm_num)

lemma NautDusk_ne_Noon : SunTime.NautDusk ≠ SunTime.Noon := by
  unfold SunTime.NautDusk SunTime.Noon nautTwilightElev
  exact from_deg_ne (by norm_num)

lemma NautDusk_ne_Midnight : SunTime.NautDusk ≠ SunTime.Midnight := by
  unfold SunTime.NautDusk SunTime.Midnight nautTwilightElev
  exact from_deg_ne (by norm_num)

lemma AstroDusk_ne_Noon : SunTime.AstroDusk ≠ SunTime.Noon := by
  unfold SunTime.AstroDusk SunTime.Noon astroTwilightElev
  exact from_deg_ne (by norm_num)

lemma AstroDusk_ne_Midnight : SunTime.AstroDusk ≠ SunTime.Midnight := by
  unfold SunTime.AstroDusk SunTime.Midnight astroTwilightElev
  exact from_deg_ne (by norm_num)

namespace wiki

lemma wiki_get_sun_time_noon (lat lon : ℝ) (d : ℤ) :
    get_sun_time lat lon d SunTime.Noon =
      some (floor_seconds (julian_date.julian_to_sys (true_noon lon d))) := by
  simp [get_sun_time, true_noon, Noon_ne_Midnight]

lemma wiki_get_sun_time_midnight (lat lon : ℝ) (d : ℤ) :
    get_sun_time lat lon d SunTime.Midnight =
      some (floor_seconds (julian_date.julian_to_sys (true_noon lon d + 0.5))) := by
  simp [get_sun_time, true_noon]

lemma wiki_get_sun_time_event (lat lon : ℝ) (d : ℤ) (elev : ℝ) (h2 : elev ≠ SunTime.Midnight)
    (h1 : elev ≠ SunTime.Noon) :
    get_sun_time lat lon d elev =
      (hour_angle lat (declination lon d) elev).map fun ha =>
        floor_seconds (julian_date.julian_to_sys (true_noon lon d + Angle.deg ha / 360)) := by
  simp [get_sun_time, true_noon, declination, h1, h2, Option.map_map]
  rfl

end wiki

namespace noaa

lemma noaa_get_sun_time_noon (lat lon : ℝ) (d : ℤ) :
    get_sun_time lat lon d SunTime.Noon = some (floor_seconds ((d : ℝ) + a_noon lon d)) := by
  simp [get_sun_time, a_noon]

lemma noaa_get_sun_time_midnight (lat lon : ℝ) (d : ℤ) :
    get_sun_time lat lon d SunTime.Midnight =
      some (floor_seconds ((d : ℝ) + a_noon lon d + 0.5)) := by
  simp [get_sun_time, a_noon, Midnight_ne_Noon]

lemma noaa_get_sun_time_event (lat lon : ℝ) (d : ℤ) (elev : ℝ) (h1 : elev ≠ SunTime.Noon)
    (h2 : elev ≠ SunTime.Midnight) :
    get_sun_time lat lon d elev =
      (time_of_solar_elevation (j_day d + a_noon lon d) lat lon elev).map fun angle =>
        floor_seconds ((d : ℝ) + angle) := by
  simp [get_sun_time, a_noon, h1, h2]

end noaa

end sun

namespace sun

lemma wiki_hour_angle_none_iff (latitude declination ta : ℝ) :
    wiki.hour_angle latitude declination ta = none ↔
      ¬(-1 ≤ (Real.cos ta - Real.sin latitude * Real.sin declination) /
            (Real.cos latitude * Real.cos declination) ∧
          (Real.cos ta - Real.sin latitude * Real.sin declination) /
            (Real.cos latitude * Real.cos declination) ≤ 1) := by
  unfold wiki.hour_angle acosOpt
  by_cases h : -1 ≤ (Real.cos ta - Real.sin latitude * Real.sin declination) /
        (Real.cos latitude * Real.cos declination) ∧
      (Real.cos ta - Real.sin latitude * Real.sin declination) /
        (Real.cos latitude * Real.cos declination) ≤ 1
  · rw [if_pos h]; simp [h]
  · rw [if_neg h]; simpa using h

lemma noaa_hour_angle_arg (t latitude elevation : ℝ) :
    noaa.hour_angle t latitude elevation =
      (acosOpt (Real.cos elevation / (Real.cos latitude * Real.cos (noaa.sun_declination t)) -
          Real.tan latitude * Real.tan (noaa.sun_declination t))).map
        fun omega => copysign omega elevation := rfl

lemma noaa_hour_angle_none_iff (t latitude elevation : ℝ) :
    noaa.hour_angle t latitude elevation = none ↔
      ¬(-1 ≤ Real.cos elevation / (Real.cos latitude * Real.cos (noaa.sun_declination t)) -
            Real.tan latitude * Real.tan (noaa.sun_declination t) ∧
          Real.cos elevation / (Real.cos latitude * Real.cos (noaa.sun_declination t)) -
            Real.tan latitude * Real.tan (noaa.sun_declination t) ≤ 1) := by
  rw [noaa_hour_angle_arg]
  unfold acosOpt
  by_cases h : -1 ≤ Real.cos elevation / (Real.cos latitude * Real.cos (noaa.sun_declination t)) -
        Real.tan latitude * Real.tan (noaa.sun_declination t) ∧
      Real.cos elevation / (Real.cos latitude * Real.cos (noaa.sun_declination t)) -
        Real.tan latitude * Real.tan (noaa.sun_declination t) ≤ 1
  · rw [if_pos h]; simp [h]
  · rw [if_neg h]; simpa using h

lemma noaa_hour_angle_some (t latitude elevation : ℝ)
    (h : -1 ≤ Real.cos elevation / (Real.cos latitude * Real.cos (noaa.sun_declination t)) -
          Real.tan latitude * Real.tan (noaa.sun_declination t) ∧
        Real.cos elevation / (Real.cos latitude * Real.cos (noaa.sun_declination t)) -
          Real.tan latitude * Real.tan (noaa.sun_declination t) ≤ 1) :
    noaa.hour_angle t latitude elevation =
      some (copysign (Real.arccos
        (Real.cos elevation / (Real.cos latitude * Real.cos (noaa.sun_declination t)) -
          Real.tan latitude * Real.tan (noaa.sun_declination t))) elevation) := by
  rw [noaa_hour_angle_arg]
  unfold acosOpt
  rw [if_pos h]
  rfl

end sun

/-- Claim C1: for every latitude, longitude and date, the single-event
primitive of both backends returns a value when asked for the Noon or
Midnight kind, so the .value() calls in the aggregation entry points of both
backends always succeed and the aggregates are produced with both fields
present. -/
theorem claim_C1 (lat lon : ℝ) (d : ℤ) :
    (sun.wiki.get_sun_time lat lon d sun.SunTime.Noon).isSome = true ∧
    (sun.wiki.get_sun_time lat lon d sun.SunTime.Midnight).isSome = true ∧
    (sun.noaa.get_sun_time lat lon d sun.SunTime.Noon).isSome = true ∧
    (sun.noaa.get_sun_time lat lon d sun.SunTime.Midnight).isSome = true ∧
    (sun.wiki.get_sun_times lat lon d).isSome = true ∧
    (sun.noaa.get_sun_times lat lon d).isSome = true := by
  refine ⟨?_, ?_, ?_, ?_, ?_, ?_⟩
  · rw [sun.wiki.wiki_get_sun_time_noon]; rfl
  · rw [sun.wiki.wiki_get_sun_time_midnight]; rfl
  · rw [sun.noaa.noaa_get_sun_time_noon]; rfl
  · rw [sun.noaa.noaa_get_sun_time_midnight]; rfl
  · unfold sun.wiki.get_sun_times
    rw [sun.wiki.wiki_get_sun_time_noon, sun.wiki.wiki_get_sun_time_midnight]; rfl
  · unfold sun.noaa.get_sun_times
    rw [sun.noaa.noaa_get_sun_time_noon, sun.noaa.noaa_get_sun_time_midnight]; rfl

/-- Claim C9: in both backends the Midnight result is the midnight following
noon: exactly the solar-transit instant plus half a julian day, floored to
whole seconds afterwards (not the midnight at the start of the requested UTC
day). -/
theorem claim_C9 (lat lon : ℝ) (d : ℤ) :
    sun.wiki.get_sun_time lat lon d sun.SunTime.Midnight =
      some (floor_seconds (julian_date.julian_to_sys (sun.wiki.true_noon lon d + 0.5))) ∧
    sun.noaa.get_sun_time lat lon d sun.SunTime.Midnight =
      some (floor_seconds ((d : ℝ) + sun.noaa.a_noon lon d + 0.5)) :=
  ⟨sun.wiki.wiki_get_sun_time_midnight lat lon d, sun.noaa.noaa_get_sun_time_midnight lat lon d⟩

/-- Claim C10: sun::noaa::get_sun_elevation always returns a value in the
range of acos, the closed interval from 0 to pi radians (0 to 180 degrees);
in particular it is never negative, following the zenith-style convention of
the SunTime constants rather than a signed horizon elevation. -/
theorem claim_C10 (lat lon : ℝ) (s : ℤ) :
    sun.noaa.get_sun_elevation lat lon s ∈ Set.Icc (0 : ℝ) π ∧
    Angle.deg (sun.noaa.get_sun_elevation lat lon s) ∈ Set.Icc (0 : ℝ) 180 := by
  have h1 : sun.noaa.get_sun_elevation lat lon s ∈ Set.Icc (0 : ℝ) π := by
    unfold sun.noaa.get_sun_elevation sun.noaa.elevation_from_hour_angle
    exact ⟨Real.arccos_nonneg _, Real.arccos_le_pi _⟩
  refine ⟨h1, ?_, ?_⟩
  · unfold Angle.deg
    have h180 : (0 : ℝ) ≤ 180 / π := by positivity
    exact mul_nonneg h1.1 h180
  · unfold Angle.deg
    have hπ := Real.pi_pos
    calc sun.noaa.get_sun_elevation lat lon s * (180 / π)
        ≤ π * (180 / π) := by
          apply mul_le_mul_of_nonneg_right h1.2 (by positivity)
      _ = 180 := by field_simp

/-- Claim C5: the optimized aggregate sun::noaa::get_sun_times_opt returns a
result identical in every field (noon, midnight, and presence and value of
each optional event) to sun::noaa::get_sun_times. -/
theorem claim_C5 (lat lon : ℝ) (d : ℤ) :
    sun.noaa.get_sun_times lat lon d = some (sun.noaa.get_sun_times_opt lat lon d) := by
  unfold sun.noaa.get_sun_times sun.noaa.get_sun_times_opt
  rw [sun.noaa.noaa_get_sun_time_noon, sun.noaa.noaa_get_sun_time_midnight,
    sun.noaa.noaa_get_sun_time_event lat lon d _ sun.AstroDawn_ne_Noon sun.AstroDawn_ne_Midnight,
    sun.noaa.noaa_get_sun_time_event lat lon d _ sun.NautDawn_ne_Noon sun.NautDawn_ne_Midnight,
    sun.noaa.noaa_get_sun_time_event lat lon d _ sun.CivilDawn_ne_Noon sun.CivilDawn_ne_Midnight,
    sun.noaa.noaa_get_sun_time_event lat lon d _ sun.Sunrise_ne_Noon sun.Sunrise_ne_Midnight,
    sun.noaa.noaa_get_sun_time_event lat lon d _ sun.Sunset_ne_Noon sun.Sunset_ne_Midnight,
    sun.noaa.noaa_get_sun_time_event lat lon d _ sun.CivilDusk_ne_Noon sun.CivilDusk_ne_Midnight,
    sun.noaa.noaa_get_sun_time_event lat lon d _ sun.NautDusk_ne_Noon sun.NautDusk_ne_Midnight,
    sun.noaa.noaa_get_sun_time_event lat lon d _ sun.AstroDusk_ne_Noon sun.AstroDusk_ne_Midnight]
  simp [sun.noaa.a_noon]

/-- Claim C3, counterexample: the inverse function does not satisfy the
arcsin identity of the specification; the code takes the arc cosine of the
spherical-triangle expression, not the arc sine, so the claimed equality
fails (shown by comparing longitude 0 and longitude pi at latitude 0 and
instant 0, where the two hour angles differ by pi). -/
theorem claim_C3_counterexample :
    ¬ ∀ (lat lon : ℝ) (s : ℤ),
        sun.noaa.get_sun_elevation lat lon s = sun.noaa.spec_sun_elevation lat lon s := by
  intro h
  have h1 := h 0 0 0
  have h2 := h 0 π 0
  unfold sun.noaa.get_sun_elevation sun.noaa.elevation_from_hour_angle
    sun.noaa.spec_sun_elevation at h1 h2
  simp only [Real.cos_zero, Real.sin_zero, one_mul, mul_one, zero_mul, mul_zero, add_zero,
    zero_add] at h1 h2
  have hang : sun.noaa.elevation_hour_angle π 0 = π + sun.noaa.elevation_hour_angle 0 0 := by
    unfold sun.noaa.elevation_hour_angle
    ring
  rw [hang] at h2
  set c := sun.noaa.elevation_hour_angle 0 0 with hc
  set dv := sun.noaa.sun_declination (to_centuries (sun.noaa.j_tp 0)) with hdv
  have hpc : Real.cos (π + c) = -Real.cos c := by
    rw [add_comm]; exact Real.cos_add_pi c
  rw [hpc] at h2
  have key : ∀ y : ℝ, |y| ≤ 1 → Real.arccos y = Real.arcsin y → y = Real.sqrt 2 / 2 := by
    intro y hy heq
    rw [Real.arccos_eq_pi_div_two_sub_arcsin] at heq
    have h4 : Real.arcsin y = π / 4 := by linarith
    have h5 := congrArg Real.sin h4
    have hyl := abs_le.mp hy
    rw [Real.sin_arcsin hyl.1 hyl.2, Real.sin_pi_div_four] at h5
    exact h5
  have hb1 : |Real.cos c * Real.cos dv| ≤ 1 := by
    rw [abs_mul]
    exact mul_le_one₀ (Real.abs_cos_le_one c) (abs_nonneg _) (Real.abs_cos_le_one dv)
  have hb2 : |(-Real.cos c) * Real.cos dv| ≤ 1 := by
    rw [abs_mul, abs_neg]
    exact mul_le_one₀ (Real.abs_cos_le_one c) (abs_nonneg _) (Real.abs_cos_le_one dv)
  rw [mul_comm (Real.cos dv) (Real.cos c)] at h1
  rw [mul_comm (Real.cos dv) (-Real.cos c)] at h2
  have e1 := key _ hb1 h1
  have e2 := key _ hb2 h2
  have hs2 : (0 : ℝ) < Real.sqrt 2 := Real.sqrt_pos.mpr (by norm_num)
  have : -(Real.cos c * Real.cos dv) = Real.sqrt 2 / 2 := by
    rw [← neg_mul]; exact e2
  linarith

/-- Claim C3, amended: sun::noaa::get_sun_elevation is total (it always
returns a value), and equals the arc cosine of the spherical-triangle
expression sin(lat)*sin(decl) + cos(lat)*cos(decl)*cos(hourAngle), with the
declination and equation of time computed at the instant's fractional day of
epoch; equivalently, it is pi/2 minus the arcsin identity of the spec, a
zenith-style angle rather than a signed elevation. -/
theorem claim_C3_amended (lat lon : ℝ) (s : ℤ) :
    sun.noaa.get_sun_elevation lat lon s =
      Real.arccos (Real.sin lat *
          Real.sin (sun.noaa.sun_declination (to_centuries (sun.noaa.j_tp s))) +
        Real.cos lat * Real.cos (sun.noaa.sun_declination (to_centuries (sun.noaa.j_tp s))) *
          Real.cos (sun.noaa.elevation_hour_angle lon s)) ∧
    sun.noaa.get_sun_elevation lat lon s = π / 2 - sun.noaa.spec_sun_elevation lat lon s := by
  constructor
  · unfold sun.noaa.get_sun_elevation sun.noaa.elevation_from_hour_angle
    dsimp only
    rw [show Real.cos (sun.noaa.elevation_hour_angle lon s) * Real.cos lat *
          Real.cos (sun.noaa.sun_declination (to_centuries (sun.noaa.j_tp s))) +
          Real.sin lat * Real.sin (sun.noaa.sun_declination (to_centuries (sun.noaa.j_tp s))) =
        Real.sin lat * Real.sin (sun.noaa.sun_declination (to_centuries (sun.noaa.j_tp s))) +
          Real.cos lat * Real.cos (sun.noaa.sun_declination (to_centuries (sun.noaa.j_tp s))) *
            Real.cos (sun.noaa.elevation_hour_angle lon s) from by ring]
  · unfold sun.noaa.get_sun_elevation sun.noaa.elevation_from_hour_angle
      sun.noaa.spec_sun_elevation
    dsimp only
    rw [Real.arccos_eq_pi_div_two_sub_arcsin]
    rw [show Real.cos (sun.noaa.elevation_hour_angle lon s) * Real.cos lat *
          Real.cos (sun.noaa.sun_declination (to_centuries (sun.noaa.j_tp s))) +
          Real.sin lat * Real.sin (sun.noaa.sun_declination (to_centuries (sun.noaa.j_tp s))) =
        Real.sin lat * Real.sin (sun.noaa.sun_declination (to_centuries (sun.noaa.j_tp s))) +
          Real.cos lat * Real.cos (sun.noaa.sun_declination (to_centuries (sun.noaa.j_tp s))) *
            Real.cos (sun.noaa.elevation_hour_angle lon s) from by ring]

/-- Claim C7: for a non-Noon, non-Midnight target, the single-pass backend
computes the hour angle as acos of
(cos(target) - sin(lat)*sin(decl)) / (cos(lat)*cos(decl)), copies onto it
the sign of the target angle (negative for dawn-side targets, positive for
dusk-side), and adds the hour angle converted to fractional days (degrees
divided by 360) to the computed solar transit. -/
theorem claim_C7 (lat lon : ℝ) (d : ℤ) (elev : ℝ) (h1 : elev ≠ sun.SunTime.Noon)
    (h2 : elev ≠ sun.SunTime.Midnight) :
    sun.wiki.get_sun_time lat lon d elev =
      (acosOpt ((Real.cos elev - Real.sin lat * Real.sin (sun.wiki.declination lon d)) /
          (Real.cos lat * Real.cos (sun.wiki.declination lon d)))).map fun omega =>
        floor_seconds (julian_date.julian_to_sys
          (sun.wiki.true_noon lon d + Angle.deg (copysign omega elev) / 360)) := by
  rw [sun.wiki.wiki_get_sun_time_event lat lon d elev h2 h1]
  unfold sun.wiki.hour_angle
  rw [Option.map_map]
  rfl

/-- Claim C7, witness at latitude 0, longitude 0, date 0 and target angle
pi/2 (which is neither the Noon nor the Midnight sentinel). -/
theorem claim_C7_witness :
    ((π / 2 : ℝ) ≠ sun.SunTime.Noon ∧ (π / 2 : ℝ) ≠ sun.SunTime.Midnight) ∧
    sun.wiki.get_sun_time 0 0 0 (π / 2) =
      (acosOpt ((Real.cos (π / 2) - Real.sin 0 * Real.sin (sun.wiki.declination 0 0)) /
          (Real.cos 0 * Real.cos (sun.wiki.declination 0 0)))).map fun omega =>
        floor_seconds (julian_date.julian_to_sys
          (sun.wiki.true_noon 0 0 + Angle.deg (copysign omega (π / 2)) / 360)) := by
  have hn : (π / 2 : ℝ) ≠ sun.SunTime.Noon := by
    unfold sun.SunTime.Noon Angle.from_deg
    norm_num [Real.pi_ne_zero]
  have hm : (π / 2 : ℝ) ≠ sun.SunTime.Midnight := by
    unfold sun.SunTime.Midnight Angle.from_deg
    intro hh
    norm_num at hh
    have h180 : (180 : ℝ) * (π / 180) = π := by ring
    rw [h180] at hh
    have : π = 0 := by linarith
    exact Real.pi_ne_zero this
  exact ⟨⟨hn, hm⟩, claim_C7 0 0 0 (π / 2) hn hm⟩

section C4Bounds

lemma noaa_mean_obliq_deg_bounds {t : ℝ} (ht : |t| ≤ 1) :
    23.42 ≤ 23 + (26 + (21.448 - t * (46.815 + t * (0.00059 - t * 0.001813))) / 60) / 60 ∧
      23 + (26 + (21.448 - t * (46.815 + t * (0.00059 - t * 0.001813))) / 60) / 60 ≤ 23.46 := by
  obtain ⟨hl, hu⟩ := abs_le.mp ht
  have h2 : t ^ 2 ≤ 1 := by nlinarith
  have h3 : t ^ 3 ≤ 1 := by nlinarith [sq_nonneg (t - 1), sq_nonneg (t + 1)]
  have h3l : -1 ≤ t ^ 3 := by nlinarith [sq_nonneg (t - 1), sq_nonneg (t + 1)]
  constructor <;> nlinarith

lemma noaa_obliq_bounds {t : ℝ} (ht : |t| ≤ 1) :
    0.40 ≤ sun.noaa.obliquity_correction t ∧ sun.noaa.obliquity_correction t ≤ 0.41 := by
  have hD := noaa_mean_obliq_deg_bounds ht
  unfold sun.noaa.obliquity_correction sun.noaa.mean_ecliptic_obliquity
  dsimp only
  unfold Angle.from_deg
  have hca := Real.neg_one_le_cos ((125.04 - 1934.136 * t) * (π / 180))
  have hca2 := Real.cos_le_one ((125.04 - 1934.136 * t) * (π / 180))
  have hπl := Real.pi_gt_d6
  have hπu := Real.pi_lt_d6
  constructor <;> nlinarith [hD.1, hD.2, hca, hca2]

lemma noaa_ecc_bounds {t : ℝ} (ht : |t| ≤ 1) :
    0.0166 ≤ sun.noaa.earth_orbit_eccentricity t ∧
      sun.noaa.earth_orbit_eccentricity t ≤ 0.0168 := by
  obtain ⟨hl, hu⟩ := abs_le.mp ht
  have h2 : t ^ 2 ≤ 1 := by nlinarith
  unfold sun.noaa.earth_orbit_eccentricity
  constructor <;> nlinarith

lemma noaa_y_bounds {t : ℝ} (ht : |t| ≤ 1) :
    0 ≤ Real.tan (sun.noaa.obliquity_correction t / 2) *
        Real.tan (sun.noaa.obliquity_correction t / 2) ∧
      Real.tan (sun.noaa.obliquity_correction t / 2) *
        Real.tan (sun.noaa.obliquity_correction t / 2) ≤ 0.05 := by
  obtain ⟨hocl, hocu⟩ := noaa_obliq_bounds ht
  set x := sun.noaa.obliquity_correction t / 2 with hx
  have hxl : 0.20 ≤ x := by rw [hx]; linarith
  have hxu : x ≤ 0.205 := by rw [hx]; linarith
  have hπ := Real.pi_gt_three
  have hs1 : Real.sin x ≤ 0.205 := by
    have := Real.sin_lt (show 0 < x by linarith)
    linarith
  have hs0 : 0 ≤ Real.sin x :=
    Real.sin_nonneg_of_nonneg_of_le_pi (by linarith) (by linarith)
  have hc0 : 0 < Real.cos x := by
    apply Real.cos_pos_of_mem_Ioo
    constructor <;> [linarith; linarith]
  have hc1 := Real.cos_le_one x
  have hsc := Real.sin_sq_add_cos_sq x
  have hc : 0.957 ≤ Real.cos x := by nlinarith
  have htan : Real.tan x = Real.sin x / Real.cos x := Real.tan_eq_sin_div_cos x
  have htan0 : 0 ≤ Real.tan x := by
    rw [htan]
    exact div_nonneg hs0 (le_of_lt hc0)
  have htanu : Real.tan x ≤ 0.215 := by
    rw [htan, div_le_iff hc0]
    nlinarith
  constructor
  · exact mul_nonneg htan0 htan0
  · nlinarith

set_option maxHeartbeats 1000000 in
lemma eq_time_abs_bound {y e s1 s2 c1 s3 s4 : ℝ}
    (hy0 : 0 ≤ y) (hy1 : y ≤ 0.05) (he0 : 0.0166 ≤ e) (he1 : e ≤ 0.0168)
    (hs1 : -1 ≤ s1) (hs1u : s1 ≤ 1) (hs2 : -1 ≤ s2) (hs2u : s2 ≤ 1)
    (hc1 : -1 ≤ c1) (hc1u : c1 ≤ 1) (hs3 : -1 ≤ s3) (hs3u : s3 ≤ 1)
    (hs4 : -1 ≤ s4) (hs4u : s4 ≤ 1) :
    |y * s1 - 2 * e * s2 + 4 * e * y * s2 * c1 - 0.5 * y * y * s3 - 1.25 * e * e * s4| ≤
      0.09 := by
  have hT1 : -0.05 ≤ y * s1 ∧ y * s1 ≤ 0.05 := by
    constructor <;>
      nlinarith [mul_le_mul_of_nonneg_left hs1u hy0, mul_le_mul_of_nonneg_left hs1 hy0]
  have hT2 : -0.0336 ≤ 2 * e * s2 ∧ 2 * e * s2 ≤ 0.0336 := by
    have he' : (0 : ℝ) ≤ e := by linarith
    constructor <;>
      nlinarith [mul_le_mul_of_nonneg_left hs2u he', mul_le_mul_of_nonneg_left hs2 he']
  have hey : 0 ≤ e * y ∧ e * y ≤ 0.00084 := by
    have he' : (0 : ℝ) ≤ e := by linarith
    constructor
    · exact mul_nonneg he' hy0
    · nlinarith [mul_le_mul he1 hy1 hy0 (by norm_num : (0 : ℝ) ≤ 0.0168)]
  have hsc : -1 ≤ s2 * c1 ∧ s2 * c1 ≤ 1 := by
    constructor <;> nlinarith [mul_self_nonneg (s2 + c1), mul_self_nonneg (s2 - c1)]
  have hT3 : -0.00336 ≤ 4 * e * y * s2 * c1 ∧ 4 * e * y * s2 * c1 ≤ 0.00336 := by
    have hrw : 4 * e * y * s2 * c1 = 4 * (e * y) * (s2 * c1) := by ring
    rw [hrw]
    constructor <;> nlinarith [hey.1, hey.2, hsc.1, hsc.2]
  have hT4 : 0 ≤ 0.5 * y * y ∧ 0.5 * y * y ≤ 0.00125 := by constructor <;> nlinarith
  have hee : 0 ≤ e * e ∧ e * e ≤ 0.00029 := by constructor <;> nlinarith
  have hT5 : -0.000363 ≤ 1.25 * e * e * s4 ∧ 1.25 * e * e * s4 ≤ 0.000363 := by
    have hrw : 1.25 * e * e * s4 = 1.25 * (e * e) * s4 := by ring
    rw [hrw]
    constructor <;> nlinarith [hee.1, hee.2]
  rw [abs_le]
  constructor <;>
    nlinarith [hT1.1, hT1.2, hT2.1, hT2.2, hT3.1, hT3.2, hT4.1, hT4.2, hT5.1, hT5.2]

lemma noaa_eq_of_time_bound {t : ℝ} (ht : |t| ≤ 1) :
    |sun.noaa.equation_of_time t| ≤ 0.09 := by
  obtain ⟨hy0, hy1⟩ := noaa_y_bounds ht
  obtain ⟨he0, he1⟩ := noaa_ecc_bounds ht
  unfold sun.noaa.equation_of_time
  dsimp only
  exact eq_time_abs_bound hy0 hy1 he0 he1
    (Real.neg_one_le_sin _) (Real.sin_le_one _) (Real.neg_one_le_sin _) (Real.sin_le_one _)
    (Real.neg_one_le_cos _) (Real.cos_le_one _) (Real.neg_one_le_sin _) (Real.sin_le_one _)
    (Real.neg_one_le_sin _) (Real.sin_le_one _)

lemma noaa_declination_bounds {t : ℝ} (ht : |t| ≤ 1) :
    |Real.sin (sun.noaa.sun_declination t)| ≤ 0.41 ∧
      0.91 ≤ Real.cos (sun.noaa.sun_declination t) := by
  obtain ⟨hocl, hocu⟩ := noaa_obliq_bounds ht
  have hπ := Real.pi_gt_three
  have hsoc0 : 0 ≤ Real.sin (sun.noaa.obliquity_correction t) :=
    Real.sin_nonneg_of_nonneg_of_le_pi (by linarith) (by linarith)
  have hsocu : Real.sin (sun.noaa.obliquity_correction t) ≤ 0.41 := by
    have := Real.sin_lt (show 0 < sun.noaa.obliquity_correction t by linarith)
    linarith
  have hsb : |Real.sin (sun.noaa.obliquity_correction t) *
      Real.sin (sun.noaa.sun_apparent_longitude t)| ≤ 0.41 := by
    rw [abs_mul]
    calc |Real.sin (sun.noaa.obliquity_correction t)| *
        |Real.sin (sun.noaa.sun_apparent_longitude t)|
        ≤ 0.41 * 1 := by
          apply mul_le_mul _ (Real.abs_sin_le_one _) (abs_nonneg _) (by norm_num)
          rw [abs_of_nonneg hsoc0]
          exact hsocu
      _ = 0.41 := by norm_num
  obtain ⟨hsl, hsu⟩ := abs_le.mp hsb
  unfold sun.noaa.sun_declination
  constructor
  · rw [Real.sin_arcsin (by linarith) (by linarith)]
    exact hsb
  · rw [Real.cos_arcsin]
    rw [Real.le_sqrt (by norm_num) (by nlinarith)]
    nlinarith

lemma astro_dawn_eq : sun.SunTime.AstroDawn = -(3 * π / 5) := by
  unfold sun.SunTime.AstroDawn sun.astroTwilightElev Angle.from_deg
  ring

lemma astro_dawn_neg : sun.SunTime.AstroDawn < 0 := by
  rw [astro_dawn_eq]
  have := Real.pi_pos
  linarith

lemma astro_dawn_cos_bounds :
    -(1 / 2) ≤ Real.cos sun.SunTime.AstroDawn ∧ Real.cos sun.SunTime.AstroDawn ≤ 0 := by
  rw [astro_dawn_eq, Real.cos_neg]
  have hπ := Real.pi_pos
  constructor
  · have h1 : Real.cos (2 * π / 3) ≤ Real.cos (3 * π / 5) :=
      Real.cos_le_cos_of_nonneg_of_le_pi (by positivity) (by linarith) (by linarith)
    have h2 : Real.cos (2 * π / 3) = -(1 / 2) := by
      have he : (2 : ℝ) * π / 3 = π - π / 3 := by ring
      rw [he, Real.cos_pi_sub, Real.cos_pi_div_three]
    linarith
  · exact Real.cos_nonpos_of_pi_div_two_le_of_le (by linarith) (by linarith)

lemma noaa_astro_arg_bounds {c : ℝ} (hc : |c| ≤ 1) :
    -1 ≤ Real.cos sun.SunTime.AstroDawn /
          (Real.cos 0 * Real.cos (sun.noaa.sun_declination c)) -
        Real.tan 0 * Real.tan (sun.noaa.sun_declination c) ∧
      Real.cos sun.SunTime.AstroDawn /
          (Real.cos 0 * Real.cos (sun.noaa.sun_declination c)) -
        Real.tan 0 * Real.tan (sun.noaa.sun_declination c) ≤ 1 := by
  obtain ⟨hds, hdc⟩ := noaa_declination_bounds hc
  obtain ⟨hca1, hca2⟩ := astro_dawn_cos_bounds
  rw [Real.cos_zero, Real.tan_zero, one_mul, zero_mul, sub_zero]
  have hdcpos : 0 < Real.cos (sun.noaa.sun_declination c) := by linarith
  constructor
  · rw [le_div_iff hdcpos]
    nlinarith
  · rw [div_le_iff hdcpos]
    nlinarith

lemma copysign_abs (x y : ℝ) : |copysign x y| = |x| := by
  unfold copysign
  split <;> simp

lemma noaa_hour_angle_astro_isSome {c : ℝ} (hc : |c| ≤ 1) :
    (sun.noaa.hour_angle c 0 sun.SunTime.AstroDawn).isSome = true := by
  rw [sun.noaa_hour_angle_some c 0 sun.SunTime.AstroDawn (noaa_astro_arg_bounds hc)]
  rfl

lemma noaa_hour_angle_abs_le_pi {c latitude elevation : ℝ} {v : ℝ}
    (hv : sun.noaa.hour_angle c latitude elevation = some v) : |v| ≤ π := by
  rw [sun.noaa_hour_angle_arg] at hv
  unfold acosOpt at hv
  by_cases h : -1 ≤ Real.cos elevation /
        (Real.cos latitude * Real.cos (sun.noaa.sun_declination c)) -
      Real.tan latitude * Real.tan (sun.noaa.sun_declination c) ∧
      Real.cos elevation / (Real.cos latitude * Real.cos (sun.noaa.sun_declination c)) -
        Real.tan latitude * Real.tan (sun.noaa.sun_declination c) ≤ 1
  · rw [if_pos h] at hv
    simp only [Option.map_some'] at hv
    obtain rfl : copysign (Real.arccos _) elevation = v := Option.some_inj.mp hv
    rw [copysign_abs, abs_of_nonneg (Real.arccos_nonneg _)]
    exact Real.arccos_le_pi _
  · rw [if_neg h] at hv
    simp at hv

lemma noaa_tose_astro_isSome {n : ℝ} (hn : |n| ≤ 30000) :
    (sun.noaa.time_of_solar_elevation n 0 0 sun.SunTime.AstroDawn).isSome = true := by
  have hc1 : |to_centuries n| ≤ 1 := by
    unfold to_centuries
    rw [abs_div, abs_of_pos (by norm_num : (0 : ℝ) < 36525)]
    rw [div_le_one (by norm_num)]
    linarith
  obtain ⟨a1, ha1⟩ := Option.isSome_iff_exists.mp (noaa_hour_angle_astro_isSome hc1)
  have ha1b : |a1| ≤ π := noaa_hour_angle_abs_le_pi ha1
  unfold sun.noaa.time_of_solar_elevation
  rw [ha1]
  simp only [Option.some_bind]
  have hπ := Real.pi_gt_three
  have hπ4 := Real.pi_lt_four
  have hc2 : |to_centuries (n + Angle.to_julian_days a1)| ≤ 1 := by
    unfold to_centuries Angle.to_julian_days
    have hj : |a1 / (2 * π)| ≤ 1 := by
      rw [abs_div, abs_of_pos (by linarith : (0 : ℝ) < 2 * π)]
      rw [div_le_one (by linarith)]
      linarith
    rw [abs_div, abs_of_pos (by norm_num : (0 : ℝ) < 36525)]
    rw [div_le_one (by norm_num)]
    calc |n + a1 / (2 * π)| ≤ |n| + |a1 / (2 * π)| := abs_add _ _
      _ ≤ 30000 + 1 := by linarith
      _ ≤ 36525 := by norm_num
  obtain ⟨a2, ha2⟩ := Option.isSome_iff_exists.mp (noaa_hour_angle_astro_isSome hc2)
  rw [ha2]
  rfl

lemma noaa_j_day_c4 : sun.noaa.j_day 19000 = 8042.5 := by
  unfold sun.noaa.j_day julian_date.jdiff start_of_jul_century
  norm_num

lemma noaa_Noon_eq_pi : sun.noaa.Noon = π := by
  unfold sun.noaa.Noon Angle.from_deg
  ring

lemma noaa_a_noon_c4 : |sun.noaa.a_noon 0 19000| ≤ 1 := by
  have hπ := Real.pi_gt_three
  have hπ4 := Real.pi_lt_four
  have h2π : (0 : ℝ) < 2 * π := by linarith
  have h1 : |to_centuries (sun.noaa.j_day 19000 +
      Angle.to_julian_days (sun.noaa.Noon - 0))| ≤ 1 := by
    rw [noaa_j_day_c4, noaa_Noon_eq_pi]
    unfold to_centuries Angle.to_julian_days
    rw [sub_zero]
    have hq1 : π / (2 * π) ≤ 1 := by rw [div_le_one h2π]; linarith
    have hq0 : (0 : ℝ) ≤ π / (2 * π) := by positivity
    rw [abs_div, abs_of_pos (by norm_num : (0 : ℝ) < 36525), div_le_one (by norm_num)]
    rw [abs_of_pos (by linarith)]
    linarith
  have he1 := noaa_eq_of_time_bound h1
  obtain ⟨he1l, he1u⟩ := abs_le.mp he1
  have h2 : |to_centuries (sun.noaa.j_day 19000 + Angle.to_julian_days (sun.noaa.Noon - 0 -
      sun.noaa.equation_of_time (to_centuries (sun.noaa.j_day 19000 +
        Angle.to_julian_days (sun.noaa.Noon - 0)))))| ≤ 1 := by
    set e1 := sun.noaa.equation_of_time (to_centuries (sun.noaa.j_day 19000 +
      Angle.to_julian_days (sun.noaa.Noon - 0))) with he1def
    rw [noaa_j_day_c4, noaa_Noon_eq_pi]
    unfold to_centuries Angle.to_julian_days
    have hq : |(π - 0 - e1) / (2 * π)| ≤ 1 := by
      rw [abs_div, abs_of_pos h2π, div_le_one h2π, abs_le]
      constructor <;> linarith
    obtain ⟨hql, hqu⟩ := abs_le.mp hq
    rw [abs_div, abs_of_pos (by norm_num : (0 : ℝ) < 36525), div_le_one (by norm_num), abs_le]
    constructor <;> linarith
  have he2 := noaa_eq_of_time_bound h2
  unfold sun.noaa.a_noon sun.noaa.time_of_solar_noon
  dsimp only
  set E2 := sun.noaa.equation_of_time (to_centuries (sun.noaa.j_day 19000 +
    Angle.to_julian_days (sun.noaa.Noon - 0 - sun.noaa.equation_of_time (to_centuries
      (sun.noaa.j_day 19000 + Angle.to_julian_days (sun.noaa.Noon - 0)))))) with hE2
  obtain ⟨he2l, he2u⟩ := abs_le.mp he2
  rw [noaa_Noon_eq_pi]
  unfold Angle.to_julian_days
  rw [abs_div, abs_of_pos h2π, div_le_one h2π, abs_le]
  constructor <;> linarith

lemma noaa_c4_isSome :
    (sun.noaa.get_sun_time 0 0 19000 sun.SunTime.AstroDawn).isSome = true := by
  rw [sun.noaa.noaa_get_sun_time_event 0 0 19000 sun.SunTime.AstroDawn
    sun.AstroDawn_ne_Noon sun.AstroDawn_ne_Midnight]
  have hn : |sun.noaa.j_day 19000 + sun.noaa.a_noon 0 19000| ≤ 30000 := by
    obtain ⟨hal, hau⟩ := abs_le.mp noaa_a_noon_c4
    rw [noaa_j_day_c4, abs_le]
    constructor <;> linarith
  obtain ⟨v, hv⟩ := Option.isSome_iff_exists.mp (noaa_tose_astro_isSome hn)
  rw [hv]
  rfl

end C4Bounds

/-- Claim C2: an event query returns no value exactly when the target is a
real elevation event (not the Noon or Midnight sentinel) whose arc-cosine
argument falls outside the closed interval from -1 to 1 (for the two-pass
backend: in either of its two passes); absence is signalled only through the
optional result, never by an exception, abort or sentinel number (the
embedding is total, with Option modelling the NaN detection). -/
theorem claim_C2 (lat lon : ℝ) (d : ℤ) (elev : ℝ) :
    (sun.wiki.get_sun_time lat lon d elev = none ↔
      elev ≠ sun.SunTime.Midnight ∧ elev ≠ sun.SunTime.Noon ∧
        sun.wiki.acos_arg lat lon d elev ∉ Set.Icc (-1 : ℝ) 1) ∧
    (sun.noaa.get_sun_time lat lon d elev = none ↔
      elev ≠ sun.SunTime.Noon ∧ elev ≠ sun.SunTime.Midnight ∧
        (sun.noaa.acos_arg1 lat lon d elev ∉ Set.Icc (-1 : ℝ) 1 ∨
          sun.noaa.acos_arg2 lat lon d elev ∉ Set.Icc (-1 : ℝ) 1)) := by
  constructor
  · by_cases hm : elev = sun.SunTime.Midnight
    · subst hm
      rw [sun.wiki.wiki_get_sun_time_midnight]
      simp
    · by_cases hn : elev = sun.SunTime.Noon
      · subst hn
        rw [sun.wiki.wiki_get_sun_time_noon]
        simp
      · rw [sun.wiki.wiki_get_sun_time_event lat lon d elev hm hn]
        rw [Option.map_eq_none']
        rw [sun.wiki_hour_angle_none_iff]
        unfold sun.wiki.acos_arg
        simp [hm, hn, Set.mem_Icc]
  · by_cases hn : elev = sun.SunTime.Noon
    · subst hn
      rw [sun.noaa.noaa_get_sun_time_noon]
      simp
    · by_cases hm : elev = sun.SunTime.Midnight
      · subst hm
        rw [sun.noaa.noaa_get_sun_time_midnight]
        simp
      · rw [sun.noaa.noaa_get_sun_time_event lat lon d elev hn hm]
        rw [Option.map_eq_none']
        unfold sun.noaa.time_of_solar_elevation
        by_cases h1 : sun.noaa.acos_arg1 lat lon d elev ∈ Set.Icc (-1 : ℝ) 1
        · have h1m := Set.mem_Icc.mp h1
          rw [sun.noaa_hour_angle_some (to_centuries (sun.noaa.j_day d + sun.noaa.a_noon lon d))
            lat elev h1m]
          simp only [Option.some_bind]
          rw [Option.map_eq_none']
          rw [sun.noaa_hour_angle_none_iff]
          constructor
          · intro hq2
            refine ⟨hn, hm, Or.inr ?_⟩
            intro hc
            exact hq2 (Set.mem_Icc.mp hc)
          · rintro ⟨-, -, ha | hb⟩
            · exact absurd h1 ha
            · intro hc
              exact hb (Set.mem_Icc.mpr hc)
        · have h1n : sun.noaa.hour_angle
              (to_centuries (sun.noaa.j_day d + sun.noaa.a_noon lon d)) lat elev = none := by
            rw [sun.noaa_hour_angle_none_iff]
            intro hc
            exact h1 (Set.mem_Icc.mpr hc)
          rw [h1n]
          simp only [Option.none_bind]
          constructor
          · intro _
            exact ⟨hn, hm, Or.inl h1⟩
          · intro _
            trivial

/-- Claim C8: for every latitude in the valid range, every longitude, every
date and every valid enumeration value, the legacy enum-based get_sun_time
never reaches the throwing default branch of sun::time_angle, the legacy
aggregate and the wiki and noaa aggregates never throw (including through
their .value() calls), and the elevation-angle lookup itself is defined for
every event kind the backends pass to it. -/
theorem claim_C8 (lat lon : ℝ) (d : ℤ) (k : ℤ) (hlat : |lat| ≤ π / 2)
    (hk0 : 0 ≤ k) (hk9 : k ≤ 9) :
    (sun.get_sun_time lat lon d k).isSome = true ∧
    (sun.get_sun_times lat lon d).isSome = true ∧
    (sun.wiki.get_sun_times lat lon d).isSome = true ∧
    (sun.noaa.get_sun_times lat lon d).isSome = true ∧
    (2 ≤ k → (sun.time_angle k).isSome = true) := by
  refine ⟨?_, ?_, ?_, ?_, ?_⟩
  · interval_cases k <;> simp [sun.get_sun_time, sun.time_angle]
  · simp [sun.get_sun_times, sun.get_sun_time, sun.time_angle]
  · unfold sun.wiki.get_sun_times
    rw [sun.wiki.wiki_get_sun_time_noon, sun.wiki.wiki_get_sun_time_midnight]
    rfl
  · unfold sun.noaa.get_sun_times
    rw [sun.noaa.noaa_get_sun_time_noon, sun.noaa.noaa_get_sun_time_midnight]
    rfl
  · intro h2k
    interval_cases k <;> first
      | (exfalso; omega)
      | simp [sun.time_angle]

/-- Claim C8, witness at latitude 0 (inside the valid range) and the
Sunrise enumeration value. -/
theorem claim_C8_witness :
    (|(0 : ℝ)| ≤ π / 2 ∧ (0 : ℤ) ≤ 5 ∧ (5 : ℤ) ≤ 9) ∧
    ((sun.get_sun_time 0 0 0 5).isSome = true ∧
      (sun.get_sun_times 0 0 0).isSome = true ∧
      (sun.wiki.get_sun_times 0 0 0).isSome = true ∧
      (sun.noaa.get_sun_times 0 0 0).isSome = true ∧
      (2 ≤ (5 : ℤ) → (sun.time_angle 5).isSome = true)) := by
  have hlat : |(0 : ℝ)| ≤ π / 2 := by
    rw [abs_zero]
    positivity
  exact ⟨⟨hlat, by norm_num, by norm_num⟩, claim_C8 0 0 0 5 hlat (by norm_num) (by norm_num)⟩

/-- Claim C4, counterexample: the 1e-6-degree round trip between
sun::noaa::get_sun_time and sun::noaa::get_sun_elevation fails.  At latitude
0, longitude 0, date 19000 (2022-01-08) the AstroDawn event is defined, but
the inverse function returns a zenith-style angle in the interval from 0 to
180 degrees while the AstroDawn target is -108 degrees, so the difference
exceeds 108 degrees. -/
theorem claim_C4_counterexample :
    ¬ ∀ (lat lon : ℝ) (d : ℤ) (E : ℝ) (t : ℤ),
        sun.noaa.get_sun_time lat lon d E = some t →
          |Angle.deg (sun.noaa.get_sun_elevation lat lon t) - Angle.deg E| ≤ 1e-6 := by
  intro h
  obtain ⟨t, ht⟩ := Option.isSome_iff_exists.mp noaa_c4_isSome
  have hb := h 0 0 19000 sun.SunTime.AstroDawn t ht
  have helev : 0 ≤ Angle.deg (sun.noaa.get_sun_elevation 0 0 t) := by
    unfold Angle.deg
    have h1 : 0 ≤ sun.noaa.get_sun_elevation 0 0 t := by
      unfold sun.noaa.get_sun_elevation sun.noaa.elevation_from_hour_angle
      exact Real.arccos_nonneg _
    have h2 : (0 : ℝ) ≤ 180 / π := by positivity
    exact mul_nonneg h1 h2
  have hdegE : Angle.deg sun.SunTime.AstroDawn = -108 := by
    unfold Angle.deg sun.SunTime.AstroDawn sun.astroTwilightElev Angle.from_deg
    field_simp
    norm_num
  rw [hdegE, abs_le] at hb
  linarith [hb.2]

/-- Claim C4, amended: the claim as stated fails for dawn-side targets: for
every latitude, longitude and date, and every dawn-side target E (at or
below the Sunrise angle of -90.833 degrees), a defined event time t has
|get_sun_elevation(lat, lon, t) - E| strictly greater than 1e-6 degrees,
because the inverse function returns a zenith-style angle in the interval
from 0 to 180 degrees and can never reproduce a negative signed target; no
1e-6-degree round trip holds as claimed. -/
theorem claim_C4_amended (lat lon : ℝ) (d : ℤ) (E : ℝ) (hE : E ≤ sun.SunTime.Sunrise)
    (t : ℤ) (ht : sun.noaa.get_sun_time lat lon d E = some t) :
    1e-6 < |Angle.deg (sun.noaa.get_sun_elevation lat lon t) - Angle.deg E| := by
  have helev : 0 ≤ Angle.deg (sun.noaa.get_sun_elevation lat lon t) := by
    unfold Angle.deg
    have h1 : 0 ≤ sun.noaa.get_sun_elevation lat lon t := by
      unfold sun.noaa.get_sun_elevation sun.noaa.elevation_from_hour_angle
      exact Real.arccos_nonneg _
    have h2 : (0 : ℝ) ≤ 180 / π := by positivity
    exact mul_nonneg h1 h2
  have hS : Angle.deg sun.SunTime.Sunrise = -90.833 := by
    unfold Angle.deg sun.SunTime.Sunrise sun.daytimeElev Angle.from_deg
    field_simp
    ring
  have hdegE : Angle.deg E ≤ -90.833 := by
    rw [← hS]
    unfold Angle.deg
    exact mul_le_mul_of_nonneg_right hE (by positivity)
  have habs := le_abs_self
    (Angle.deg (sun.noaa.get_sun_elevation lat lon t) - Angle.deg E)
  linarith

/-- Claim C4, witness: at latitude 0, longitude 0, date 19000 the AstroDawn
target (a dawn-side target below the Sunrise angle) has a defined event
time, and the round-trip difference exceeds the tolerance there. -/
theorem claim_C4_amended_witness :
    (sun.SunTime.AstroDawn ≤ sun.SunTime.Sunrise ∧
      sun.noaa.get_sun_time 0 0 19000 sun.SunTime.AstroDawn =
        some ((sun.noaa.get_sun_time 0 0 19000 sun.SunTime.AstroDawn).getD 0)) ∧
    1e-6 < |Angle.deg (sun.noaa.get_sun_elevation 0 0
        ((sun.noaa.get_sun_time 0 0 19000 sun.SunTime.AstroDawn).getD 0)) -
      Angle.deg sun.SunTime.AstroDawn| := by
  have hle : sun.SunTime.AstroDawn ≤ sun.SunTime.Sunrise := by
    unfold sun.SunTime.AstroDawn sun.SunTime.Sunrise sun.astroTwilightElev sun.daytimeElev
      Angle.from_deg
    have hp : (0 : ℝ) < π / 180 := by positivity
    nlinarith
  obtain ⟨t, htv⟩ := Option.isSome_iff_exists.mp noaa_c4_isSome
  have hsome : sun.noaa.get_sun_time 0 0 19000 sun.SunTime.AstroDawn =
      some ((sun.noaa.get_sun_time 0 0 19000 sun.SunTime.AstroDawn).getD 0) := by
    rw [htv]
    rfl
  exact ⟨⟨hle, hsome⟩, claim_C4_amended 0 0 19000 sun.SunTime.AstroDawn hle _ hsome⟩

end
